import Mathlib

/-!
Shallow embedding of the `go-pkgs` utility packages (pagination, config,
response, logger, httpclient) together with theorems settling the spec
claims about them.  Go `int` values are modelled as `Int`, with every
arithmetic operation wrapped into the 64-bit two's-complement range
(`goInt64Wrap`); Go's truncated integer division is `Int.tdiv`, with the
runtime panic on a zero divisor modelled as an `Option` error branch.
-/

/-! ### pagination package (`pagination/pagination.go`) -/

structure Pagination where
  Page : Int
  PageSize : Int
  TotalData : Int
  TotalPage : Int
  deriving DecidableEq

/-- Two's-complement wrap-around of Go's 64-bit `int`: the result of every
arithmetic operation reduced into `[-2^63, 2^63)`. -/
def goInt64Wrap (a : Int) : Int :=
  (a + 9223372036854775808) % 18446744073709551616 - 9223372036854775808

/-- Go integer division of `int` values: truncation toward zero
(`Int.tdiv`); a zero divisor panics at runtime, modelled here as the
`none` branch; the quotient wraps (its single overflow case being
`MinInt64 / -1`, which Go defines as `MinInt64`). -/
def goIntDiv (a b : Int) : Option Int :=
  if b = 0 then none else some (goInt64Wrap (a.tdiv b))

/-- `func (p *Pagination) SetDefault() Pagination`: zero `Page` becomes 1,
zero `PageSize` becomes 20, everything else is left as it is, and the
updated value is returned. -/
def Pagination.SetDefault (p : Pagination) : Pagination :=
  let p1 := if p.Page = 0 then { p with Page := 1 } else p
  if p1.PageSize = 0 then { p1 with PageSize := 20 } else p1

/-- `func (p *Pagination) Limit() int`. -/
def Pagination.Limit (p : Pagination) : Int := p.PageSize

/-- `func (p *Pagination) Offset() int`: `(p.Page - 1) * p.PageSize`, each
operation wrapping as Go `int` arithmetic does. -/
def Pagination.Offset (p : Pagination) : Int :=
  goInt64Wrap (goInt64Wrap (p.Page - 1) * p.PageSize)

/-- `func (p *Pagination) SetTotal(totalData int) Pagination`:
`TotalData` is set to the argument and `TotalPage` to
`(totalData + PageSize - 1) / PageSize` in Go integer division, the
addition and subtraction each wrapping as Go 64-bit `int` arithmetic
does; with `PageSize = 0` the division panics (`none`). -/
def Pagination.SetTotal (p : Pagination) (totalData : Int) : Option Pagination :=
  match goIntDiv (goInt64Wrap (goInt64Wrap (totalData + p.PageSize) - 1))
      p.PageSize with
  | none => none
  | some q => some { p with TotalData := totalData, TotalPage := q }

/-- Subtracting one from a wrapped value and wrapping again is the wrap of
the unwrapped predecessor (wrapping respects congruence mod `2^64`). -/
theorem goInt64Wrap_sub_one (x : Int) :
    goInt64Wrap (goInt64Wrap x - 1) = goInt64Wrap (x - 1) := by
  unfold goInt64Wrap
  omega

/-- Wrapping is the identity on values already inside the `int64` range. -/
theorem goInt64Wrap_eq_self (a : Int)
    (h1 : -9223372036854775808 ≤ a) (h2 : a ≤ 9223372036854775807) :
    goInt64Wrap a = a := by
  unfold goInt64Wrap
  omega

/-- For `0 ≤ a` and `0 < b`, the Go expression `(a + b - 1) / b` computes the
mathematical ceiling of `a / b`. -/
theorem tdiv_add_sub_one_eq_ceil (a b : Int) (ha : 0 ≤ a) (hb : 0 < b) :
    (a + b - 1).tdiv b = Int.ceil ((a : ℚ) / (b : ℚ)) := by
  have hm : (0 : Int) ≤ a + b - 1 := by omega
  rw [Int.tdiv_eq_ediv hm (le_of_lt hb)]
  have hdm := Int.ediv_add_emod (a + b - 1) b
  have hr0 : 0 ≤ (a + b - 1) % b := Int.emod_nonneg _ (by omega)
  have hrb : (a + b - 1) % b < b := Int.emod_lt_of_pos _ hb
  set q : Int := (a + b - 1) / b with hq
  have h1 : a ≤ b * q := by linarith
  have hmul : b * (q - 1) = b * q - b := by ring
  have h2 : b * (q - 1) < a := by rw [hmul]; linarith
  have hbq : (0 : ℚ) < (b : ℚ) := by exact_mod_cast hb
  symm
  rw [Int.ceil_eq_iff]
  refine ⟨?_, ?_⟩
  · rw [lt_div_iff₀ hbq]
    have hc : ((b * (q - 1) : Int) : ℚ) < ((a : Int) : ℚ) := by exact_mod_cast h2
    push_cast at hc
    linarith
  · rw [div_le_iff₀ hbq]
    have hc : ((a : Int) : ℚ) ≤ ((b * q : Int) : ℚ) := by exact_mod_cast h1
    push_cast at hc
    linarith

/-- C2 (amended): for `PageSize > 0` and `totalData = n ≥ 0` such that the
numerator `n + PageSize - 1` does not overflow Go's 64-bit `int`,
`SetTotal n` succeeds, sets `TotalData` to `n` and `TotalPage` to
`(n + PageSize - 1) / PageSize` in integer division, which equals the
mathematical ceiling of `n / PageSize`; in particular with
`PageSize = 20`: `n = 0` gives total page 0, `n = 20` gives 1, `n = 41`
gives 3 and `n = 61` gives 4. -/
theorem c2_setTotal_ceiling (p : Pagination) (n : Int)
    (hps : 0 < p.PageSize) (hn : 0 ≤ n)
    (hbound : n + p.PageSize - 1 ≤ 9223372036854775807) :
    p.SetTotal n =
      some { p with TotalData := n,
                    TotalPage := (n + p.PageSize - 1).tdiv p.PageSize } ∧
    (n + p.PageSize - 1).tdiv p.PageSize =
      Int.ceil ((n : ℚ) / (p.PageSize : ℚ)) ∧
    (Pagination.mk 1 20 0 0).SetTotal 0 = some (Pagination.mk 1 20 0 0) ∧
    (Pagination.mk 1 20 0 0).SetTotal 20 = some (Pagination.mk 1 20 20 1) ∧
    (Pagination.mk 1 20 0 0).SetTotal 41 = some (Pagination.mk 1 20 41 3) ∧
    (Pagination.mk 1 20 0 0).SetTotal 61 = some (Pagination.mk 1 20 61 4) := by
  refine ⟨?_, tdiv_add_sub_one_eq_ceil n p.PageSize hn hps,
    by decide, by decide, by decide, by decide⟩
  have hnum : goInt64Wrap (goInt64Wrap (n + p.PageSize) - 1) =
      n + p.PageSize - 1 := by
    rw [goInt64Wrap_sub_one]
    exact goInt64Wrap_eq_self _ (by omega) (by omega)
  have htd : (n + p.PageSize - 1).tdiv p.PageSize =
      (n + p.PageSize - 1) / p.PageSize :=
    Int.tdiv_eq_ediv (by omega) (le_of_lt hps)
  have hq0 : 0 ≤ (n + p.PageSize - 1).tdiv p.PageSize := by
    rw [htd]
    exact Int.ediv_nonneg (by omega) (le_of_lt hps)
  have hqle : (n + p.PageSize - 1).tdiv p.PageSize ≤ n + p.PageSize - 1 := by
    rw [htd]
    exact Int.ediv_le_self _ (by omega)
  unfold Pagination.SetTotal goIntDiv
  rw [if_neg (by omega), hnum, goInt64Wrap_eq_self _ (by omega) (by omega)]

/-- Witness for C2 at `PageSize = 20`, `n = 41`. -/
theorem c2_setTotal_ceiling_witness :
    (Pagination.mk 1 20 0 0).SetTotal 41 =
      some (Pagination.mk 1 20 41 (((41 : Int) + 20 - 1).tdiv 20)) ∧
    ((41 : Int) + 20 - 1).tdiv 20 = Int.ceil ((41 : ℚ) / (20 : ℚ)) :=
  ⟨(c2_setTotal_ceiling (Pagination.mk 1 20 0 0) 41 (by decide) (by decide)
      (by decide)).1,
   (c2_setTotal_ceiling (Pagination.mk 1 20 0 0) 41 (by decide) (by decide)
      (by decide)).2.1⟩

/-- Counterexample to C2 as stated: at `PageSize = 20` and
`totalData = 2^63 - 1` (Go's `MaxInt64`, a non-negative `int` value) the
numerator `totalData + 20 - 1` wraps around, so the program's `TotalPage`
comes out a large negative number, not the mathematical ceiling of
`n / 20`, which is positive. -/
theorem c2_counterexample :
    (Pagination.mk 1 20 0 0).SetTotal 9223372036854775807 =
      some (Pagination.mk 1 20 9223372036854775807 (-461168601842738789)) ∧
    Int.ceil ((9223372036854775807 : ℚ) / (20 : ℚ)) ≠ -461168601842738789 := by
  constructor
  · decide
  · have hpos : 0 < Int.ceil ((9223372036854775807 : ℚ) / (20 : ℚ)) :=
      Int.ceil_pos.mpr (by norm_num)
    omega

/-- C6: with `PageSize = 0`, `SetTotal` performs an unguarded division by
zero, so the modelled error branch (`none`, the Go runtime panic) is
reached for every input `n`. -/
theorem c6_setTotal_div_by_zero (p : Pagination) (n : Int)
    (h : p.PageSize = 0) : p.SetTotal n = none := by
  unfold Pagination.SetTotal goIntDiv
  rw [h]
  simp

/-- Witness for C6 at `PageSize = 0`, `n = 7`. -/
theorem c6_setTotal_div_by_zero_witness :
    (Pagination.mk 1 0 0 0).SetTotal 7 = none :=
  c6_setTotal_div_by_zero (Pagination.mk 1 0 0 0) 7 (by decide)

/-- C8: `SetDefault` replaces `Page` by 1 exactly when it is 0 and
`PageSize` by 20 exactly when it is 0; all non-zero values (negative ones
included) pass through, and `TotalData`/`TotalPage` are never modified. -/
theorem c8_setDefault (p : Pagination) :
    (p.SetDefault.TotalData = p.TotalData) ∧
    (p.SetDefault.TotalPage = p.TotalPage) ∧
    (p.Page = 0 → p.SetDefault.Page = 1) ∧
    (p.Page ≠ 0 → p.SetDefault.Page = p.Page) ∧
    (p.PageSize = 0 → p.SetDefault.PageSize = 20) ∧
    (p.PageSize ≠ 0 → p.SetDefault.PageSize = p.PageSize) := by
  unfold Pagination.SetDefault
  by_cases h1 : p.Page = 0 <;> by_cases h2 : p.PageSize = 0 <;>
    simp [h1, h2]

/-- Witness for C8 at `Page = -3` (negative, passes through) and
`PageSize = 0` (defaulted to 20). -/
theorem c8_setDefault_witness :
    ((Pagination.mk (-3) 0 5 7).SetDefault.TotalData = 5) ∧
    ((Pagination.mk (-3) 0 5 7).SetDefault.Page = -3) ∧
    ((Pagination.mk (-3) 0 5 7).SetDefault.PageSize = 20) :=
  ⟨(c8_setDefault (Pagination.mk (-3) 0 5 7)).1,
   (c8_setDefault (Pagination.mk (-3) 0 5 7)).2.2.2.1 (by decide),
   (c8_setDefault (Pagination.mk (-3) 0 5 7)).2.2.2.2.1 (by decide)⟩

/-! ### config package (`config/config.go`) -/

/-- Helper for `filepath.Ext`: scan the path from its last character
backwards; a dot yields the suffix from that dot on, a path separator
(or exhausting the path) yields the empty extension. -/
def filepathExtAux : List Char → List Char → String
  | [], _ => ""
  | c :: rest, acc =>
    if c = '/' then ""
    else if c = '.' then String.mk ('.' :: acc)
    else filepathExtAux rest (c :: acc)

/-- `filepath.Ext(path)`: the suffix beginning at the final dot in the
final path element; empty if there is no dot. -/
def filepathExt (path : String) : String :=
  filepathExtAux path.data.reverse []

/-- `strings.ToLower`, character-wise (ASCII case mapping suffices for the
extensions compared against). -/
def stringToLower (s : String) : String := String.mk (s.data.map Char.toLower)

/-- Environment for the generic config loader: `readFile` models
`os.ReadFile`; the unmarshal functions model `json.Unmarshal(data, &config)`
and `yaml.Unmarshal(data, &config)`, which write through the pointer —
they take the current target value and return the updated target together
with an optional error, since the Go decoders may leave the target
partially populated when they report an error; `zero` is the Go zero value
of the target type `T` (`var config T`). -/
structure ConfigEnv (T : Type) where
  readFile : String → Except String String
  jsonUnmarshal : String → T → T × Option String
  yamlUnmarshal : String → T → T × Option String
  zero : T

/-- `func LoadJSON[T any](path string) (T, error)`. -/
def LoadJSON {T : Type} (env : ConfigEnv T) (path : String) : T × Option String :=
  match env.readFile path with
  | .error e => (env.zero, some ("failed to read config file: " ++ e))
  | .ok data =>
    match env.jsonUnmarshal data env.zero with
    | (cfg, some e) => (cfg, some ("failed to parse JSON config: " ++ e))
    | (cfg, none) => (cfg, none)

/-- `func LoadYAML[T any](path string) (T, error)`. -/
def LoadYAML {T : Type} (env : ConfigEnv T) (path : String) : T × Option String :=
  match env.readFile path with
  | .error e => (env.zero, some ("failed to read config file: " ++ e))
  | .ok data =>
    match env.yamlUnmarshal data env.zero with
    | (cfg, some e) => (cfg, some ("failed to parse YAML config: " ++ e))
    | (cfg, none) => (cfg, none)

/-- `func Load[T any](path string) (T, error)`: dispatch on the lower-cased
file extension. -/
def Load {T : Type} (env : ConfigEnv T) (path : String) : T × Option String :=
  let ext := stringToLower (filepathExt path)
  if ext = ".json" then LoadJSON env path
  else if ext = ".yaml" ∨ ext = ".yml" then LoadYAML env path
  else (env.zero,
    some ("unsupported file format: " ++ ext ++ " (supported: .json, .yaml, .yml)"))

/-- C7: `Load` dispatches on the lower-cased extension: `.json` goes to the
JSON decoder, `.yaml`/`.yml` to the YAML decoder, and any other extension
yields the unsupported-format error naming that extension, without
consulting the file system (the result is the same for every `readFile`). -/
theorem c7_load_dispatch {T : Type} (env : ConfigEnv T) (path : String) :
    (stringToLower (filepathExt path) = ".json" →
      Load env path = LoadJSON env path) ∧
    (stringToLower (filepathExt path) = ".yaml" ∨
        stringToLower (filepathExt path) = ".yml" →
      Load env path = LoadYAML env path) ∧
    (stringToLower (filepathExt path) ≠ ".json" →
      stringToLower (filepathExt path) ≠ ".yaml" →
      stringToLower (filepathExt path) ≠ ".yml" →
      ∀ f : String → Except String String,
        Load { env with readFile := f } path =
          (env.zero, some ("unsupported file format: " ++
            stringToLower (filepathExt path) ++
            " (supported: .json, .yaml, .yml)"))) := by
  set e := stringToLower (filepathExt path) with he
  refine ⟨?_, ?_, ?_⟩
  · intro h
    simp only [Load]
    rw [← he, if_pos h]
  · intro h
    have hj : e ≠ ".json" := by rcases h with h | h <;> rw [h] <;> decide
    simp only [Load]
    rw [← he, if_neg hj, if_pos h]
  · intro h1 h2 h3
    intro f
    simp only [Load]
    rw [← he, if_neg h1, if_neg (by rintro (h | h) <;> [exact h2 h; exact h3 h])]

/-- Trivial loader environment used to instantiate C7 concretely. -/
def c7Env : ConfigEnv Int where
  readFile := fun _ => Except.ok ""
  jsonUnmarshal := fun _ t => (t, none)
  yamlUnmarshal := fun _ t => (t, none)
  zero := 0

/-- Witness for C7: a `.TOML` path (upper case, exercising the lowering)
hits the unsupported-format branch for an arbitrary `readFile`. -/
theorem c7_load_dispatch_witness :
    stringToLower (filepathExt "settings.TOML") = ".toml" ∧
    Load { c7Env with readFile := fun _ => Except.error "io down" } "settings.TOML" =
      (c7Env.zero, some ("unsupported file format: " ++
        stringToLower (filepathExt "settings.TOML") ++
        " (supported: .json, .yaml, .yml)")) :=
  ⟨by decide,
   (c7_load_dispatch c7Env "settings.TOML").2.2 (by decide) (by decide) (by decide)
     (fun _ => Except.error "io down")⟩

/-- C1 (amended): when the read step fails or the extension is unsupported,
the returned target is the zero value alongside the prefixed error; when the
parse step fails, the returned target is exactly what the decoder left in it
(the code does not reset it), alongside the prefixed parse error. -/
theorem c1_error_target (T : Type) (env : ConfigEnv T) (path : String) :
    (∀ e, env.readFile path = .error e →
      LoadJSON env path = (env.zero, some ("failed to read config file: " ++ e)) ∧
      LoadYAML env path = (env.zero, some ("failed to read config file: " ++ e))) ∧
    (∀ data cfg e, env.readFile path = .ok data →
      env.jsonUnmarshal data env.zero = (cfg, some e) →
      LoadJSON env path = (cfg, some ("failed to parse JSON config: " ++ e))) ∧
    (∀ data cfg e, env.readFile path = .ok data →
      env.yamlUnmarshal data env.zero = (cfg, some e) →
      LoadYAML env path = (cfg, some ("failed to parse YAML config: " ++ e))) ∧
    (stringToLower (filepathExt path) ≠ ".json" →
      stringToLower (filepathExt path) ≠ ".yaml" →
      stringToLower (filepathExt path) ≠ ".yml" →
      Load env path = (env.zero, some ("unsupported file format: " ++
        stringToLower (filepathExt path) ++
        " (supported: .json, .yaml, .yml)"))) := by
  refine ⟨?_, ?_, ?_, ?_⟩
  · intro e h
    exact ⟨by simp [LoadJSON, h], by simp [LoadYAML, h]⟩
  · intro data cfg e h1 h2
    simp [LoadJSON, h1, h2]
  · intro data cfg e h1 h2
    simp [LoadYAML, h1, h2]
  · intro h1 h2 h3
    have h4 := (c7_load_dispatch env path).2.2 h1 h2 h3 env.readFile
    simpa using h4

/-- Modelled from `encoding/json`'s documented behavior on an
`UnmarshalTypeError`: when a JSON value has the wrong type for its field,
`Unmarshal` "skips that field and completes the unmarshaling as best it
can", returning the type error at the end — sibling fields that decoded
correctly stay populated in the target.  Point model for the target
`struct \x7b A, B int \x7d` at the input `\x7b"a":1,"b":"x"\x7d`. -/
def jsonUnmarshalPairModel (data : String) (target : Int × Int) :
    (Int × Int) × Option String :=
  if data = "\x7b\"a\":1,\"b\":\"x\"\x7d" then
    ((1, target.2),
     some "json: cannot unmarshal string into Go struct field .b of type int")
  else (target, some "json: model defined at one input only")

/-- Loader environment for the counterexample to C1: one JSON file whose
`b` field has the wrong type, so the decoder populates `a` and errors. -/
def c1Env : ConfigEnv (Int × Int) where
  readFile := fun p =>
    if p = "config.json" then Except.ok "\x7b\"a\":1,\"b\":\"x\"\x7d"
    else Except.error "open: no such file"
  jsonUnmarshal := jsonUnmarshalPairModel
  yamlUnmarshal := fun _ t => (t, some "yaml: not used here")
  zero := (0, 0)

/-- Counterexample to C1 as stated: `LoadJSON` on a readable file whose
second field fails to decode returns a non-nil error together with a
partially populated (non-zero) target — the first field survives. -/
theorem c1_counterexample :
    LoadJSON c1Env "config.json" =
      ((1, 0), some ("failed to parse JSON config: " ++
        "json: cannot unmarshal string into Go struct field .b of type int")) ∧
    ((1, 0) : Int × Int) ≠ c1Env.zero := by
  constructor
  · decide
  · decide

/-- Witness for the amended C1: a missing file yields the zero target with
the prefixed read error. -/
theorem c1_error_target_witness :
    LoadJSON c1Env "missing.json" =
      (c1Env.zero, some ("failed to read config file: " ++ "open: no such file")) ∧
    LoadYAML c1Env "missing.json" =
      (c1Env.zero, some ("failed to read config file: " ++ "open: no such file")) :=
  (c1_error_target (Int × Int) c1Env "missing.json").1 "open: no such file" rfl

/-! ### response package (`response/response.go`) -/

namespace response

/-- One observable operation performed on an `http.ResponseWriter`. -/
inductive WriterOp where
  | setHeader (key value : String)
  | writeHeader (statusCode : Int)
  | write (chunk : String)
  deriving DecidableEq

/-- JSON string literal; escaping of special characters inside the payload
is not modelled (no constant used here needs it). -/
def encodeStringLit (s : String) : String := "\"" ++ s ++ "\""

/-- `encoding/json` serialization of the `Response` envelope — field order
`code`, `data`, `error`; `data` carries the JSON serialization of the
payload and is `none` for a nil payload, omitted per its omitempty tag;
`error` is omitted per omitempty exactly when it is the empty string; the
final newline is the one `json.Encoder.Encode` appends. -/
def encodeResponse (code : Int) (data : Option String) (err : String) : String :=
  "\x7b\"code\":" ++ toString code ++
    (match data with
     | some d => ",\"data\":" ++ d
     | none => "") ++
    (if err = "" then "" else ",\"error\":" ++ encodeStringLit err) ++
    "\x7d\n"

/-- `func JSON(w http.ResponseWriter, statusCode int, data interface) error`. -/
def JSON (statusCode : Int) (data : Option String) : List WriterOp :=
  [WriterOp.setHeader "Content-Type" "application/json",
   WriterOp.writeHeader statusCode,
   WriterOp.write (encodeResponse statusCode data "")]

/-- `func Success(w, data)`: status 200. -/
def Success (data : Option String) : List WriterOp := JSON 200 data

/-- `func Created(w, data)`: status 201. -/
def Created (data : Option String) : List WriterOp := JSON 201 data

/-- `func NoContent(w)`: only `w.WriteHeader(http.StatusNoContent)`. -/
def NoContent : List WriterOp := [WriterOp.writeHeader 204]

/-- `func Error(w, statusCode, err)`: a nil error becomes the empty
message. -/
def Error (statusCode : Int) (err : Option String) : List WriterOp :=
  [WriterOp.setHeader "Content-Type" "application/json",
   WriterOp.writeHeader statusCode,
   WriterOp.write (encodeResponse statusCode none
     (match err with
      | some m => m
      | none => ""))]

/-- `func BadRequest(w, err)`. -/
def BadRequest (err : Option String) : List WriterOp := Error 400 err

/-- `func Unauthorized(w, err)`. -/
def Unauthorized (err : Option String) : List WriterOp := Error 401 err

/-- `func Forbidden(w, err)`. -/
def Forbidden (err : Option String) : List WriterOp := Error 403 err

/-- `func NotFound(w, err)`. -/
def NotFound (err : Option String) : List WriterOp := Error 404 err

/-- `func InternalServerError(w, err)`. -/
def InternalServerError (err : Option String) : List WriterOp := Error 500 err

/-- `func StatusCode(w, statusCode, message)`. -/
def StatusCode (statusCode : Int) (message : String) : List WriterOp :=
  [WriterOp.setHeader "Content-Type" "application/json",
   WriterOp.writeHeader statusCode,
   WriterOp.write (encodeResponse statusCode none message)]

/-- Whether an operation mutates a header. -/
def WriterOp.isSetHeader : WriterOp → Bool
  | .setHeader _ _ => true
  | _ => false

/-- Whether an operation writes body bytes. -/
def WriterOp.isWrite : WriterOp → Bool
  | .write _ => true
  | _ => false

/-- The trace shape shared by every body-writing responder: the JSON
content type is set first, then the status line, then the encoded
envelope. -/
def ctThenBody (t : List WriterOp) (code : Int) (body : String) : Prop :=
  t = [WriterOp.setHeader "Content-Type" "application/json",
       WriterOp.writeHeader code,
       WriterOp.write body]

end response

/-- C3 (amended): every response writer except `NoContent` sets the JSON
content type before writing the status line and then encodes the envelope
unconditionally, with nil data and empty error omitted by their omitempty
tags; `NoContent` only writes the 204 status line — it sets no header and
writes no body. -/
theorem c3_writers_envelope (code : Int) (data : Option String)
    (err : Option String) (msg : String) :
    response.ctThenBody (response.JSON code data) code
      (response.encodeResponse code data "") ∧
    response.Success data = response.JSON 200 data ∧
    response.Created data = response.JSON 201 data ∧
    response.ctThenBody (response.Error code err) code
      (response.encodeResponse code none
        (match err with
         | some m => m
         | none => "")) ∧
    response.BadRequest err = response.Error 400 err ∧
    response.Unauthorized err = response.Error 401 err ∧
    response.Forbidden err = response.Error 403 err ∧
    response.NotFound err = response.Error 404 err ∧
    response.InternalServerError err = response.Error 500 err ∧
    response.ctThenBody (response.StatusCode code msg) code
      (response.encodeResponse code none msg) ∧
    response.NoContent = [response.WriterOp.writeHeader 204] ∧
    response.encodeResponse code none "" =
      "\x7b\"code\":" ++ toString code ++ "\x7d\n" ∧
    (∀ d, response.encodeResponse code (some d) "" =
      "\x7b\"code\":" ++ toString code ++ ",\"data\":" ++ d ++ "\x7d\n") ∧
    (msg ≠ "" → response.encodeResponse code none msg =
      "\x7b\"code\":" ++ toString code ++ ",\"error\":" ++
        response.encodeStringLit msg ++ "\x7d\n") := by
  refine ⟨rfl, rfl, rfl, rfl, rfl, rfl, rfl, rfl, rfl, rfl, rfl, ?_, ?_, ?_⟩
  · simp [response.encodeResponse]
  · intro d
    simp [response.encodeResponse, String.append_assoc]
  · intro h
    simp [response.encodeResponse, response.encodeStringLit, h, String.append_assoc]

/-- Witness for C3 at code 404, payload nil, error message `boom`. -/
theorem c3_writers_envelope_witness :
    response.encodeResponse 404 none "" = "\x7b\"code\":404\x7d\n" ∧
    response.encodeResponse 404 none "boom" =
      "\x7b\"code\":404,\"error\":\"boom\"\x7d\n" := by
  refine ⟨?_, ?_⟩
  · have h := (c3_writers_envelope 404 none (some "boom") "boom").2.2.2.2.2.2.2.2.2.2.2.1
    rw [h]
    decide
  · have h := ((c3_writers_envelope 404 none (some "boom") "boom").2.2.2.2.2.2.2.2.2.2.2.2.2
      (by decide))
    rw [h]
    decide

/-- Counterexample to C3 as stated: `NoContent` is among the enumerated
response writers, yet its trace contains no header mutation at all (in
particular no Content-Type) and no body write. -/
theorem c3_counterexample :
    response.NoContent.any response.WriterOp.isSetHeader = false ∧
    response.NoContent.any response.WriterOp.isWrite = false := by
  decide

/-! ### logger package (`logger/logger.go`) -/

namespace logger

/-- zerolog's documented level constants: the zero value of
`zerolog.Level` is `DebugLevel`. -/
def zerologTraceLevel : Int := -1

/-- `zerolog.DebugLevel`, the zero value of the level type. -/
def zerologDebugLevel : Int := 0

/-- `zerolog.InfoLevel`. -/
def zerologInfoLevel : Int := 1

/-- `zerolog.WarnLevel`. -/
def zerologWarnLevel : Int := 2

/-- `zerolog.ErrorLevel`. -/
def zerologErrorLevel : Int := 3

/-- `zerolog.FatalLevel`. -/
def zerologFatalLevel : Int := 4

/-- `zerolog.PanicLevel`. -/
def zerologPanicLevel : Int := 5

/-- The invalid (all-zero) OpenTelemetry trace id, in the 32-hex-digit
string form produced by `TraceID.String()`. -/
def zeroTraceID : String := "00000000000000000000000000000000"

/-- The invalid (all-zero) OpenTelemetry span id (16 hex digits). -/
def zeroSpanID : String := "0000000000000000"

/-- An OpenTelemetry span context; the ids are modelled in their hex string
form, so `TraceID().String()` is the stored string itself. -/
structure SpanContext where
  traceID : String
  spanID : String
  deriving DecidableEq

/-- `SpanContext.HasTraceID`: the trace id is not the all-zero id. -/
def SpanContext.hasTraceID (sc : SpanContext) : Bool := sc.traceID != zeroTraceID

/-- `SpanContext.HasSpanID`. -/
def SpanContext.hasSpanID (sc : SpanContext) : Bool := sc.spanID != zeroSpanID

/-- `SpanContext.IsValid`: both ids are valid. -/
def SpanContext.isValid (sc : SpanContext) : Bool :=
  sc.hasTraceID && sc.hasSpanID

/-- `trace.SpanFromContext`: a context carrying no span yields the noop
span, whose span context is empty (invalid). -/
def spanContextFromContext : Option SpanContext → SpanContext
  | some sc => sc
  | none => ⟨zeroTraceID, zeroSpanID⟩

/-- The logger: the context fields attached to every emitted line (service
and environment entries plus any trace fields attached by `WithContext`),
the configured trace/span field names, and the current level.  The output
sink, format and mutex of the Go struct do not affect the claims modelled
here. -/
structure Logger where
  fields : List (String × String)
  traceIDKey : String
  spanIDKey : String
  level : Int
  deriving DecidableEq

/-- `logger.Config`; `Output`, `Format` and `PrettyPrint` only configure
the rendering of the sink and are not modelled. -/
structure Config where
  level : Int
  serviceName : String
  environment : String
  traceIDFieldName : String
  spanIDFieldName : String
  deriving DecidableEq

/-- `func NewWithConfig(cfg Config) *Logger`: defaulting of level (a zero
level — `DebugLevel` — becomes `InfoLevel`), of the trace/span field
names, and attachment of the service/env fields. -/
def NewWithConfig (cfg : Config) : Logger :=
  let level := if cfg.level = 0 then zerologInfoLevel else cfg.level
  let tk := if cfg.traceIDFieldName = "" then "trace_id" else cfg.traceIDFieldName
  let sk := if cfg.spanIDFieldName = "" then "span_id" else cfg.spanIDFieldName
  let fields :=
    (if cfg.serviceName = "" then [] else [("service", cfg.serviceName)]) ++
    (if cfg.environment = "" then [] else [("env", cfg.environment)])
  { fields := fields, traceIDKey := tk, spanIDKey := sk, level := level }

/-- `func New() *Logger`: the all-defaults logger. -/
def New : Logger := NewWithConfig ⟨0, "", "", "", ""⟩

/-- `func (l *Logger) WithContext(ctx context.Context) *Logger`: an invalid
span context returns the receiver; a valid one returns a child logger with
the trace/span fields attached under the configured names.  (The Go code
collects the fields in a map and iterates it; the iteration order is
unspecified, modelled here as trace id first.) -/
def Logger.WithContext (l : Logger) (ctx : Option SpanContext) : Logger :=
  let spanCtx := spanContextFromContext ctx
  if spanCtx.isValid then
    let fields :=
      (if spanCtx.hasTraceID then [(l.traceIDKey, spanCtx.traceID)] else []) ++
      (if spanCtx.hasSpanID then [(l.spanIDKey, spanCtx.spanID)] else [])
    if fields.length = 0 then l
    else { l with fields := l.fields ++ fields }
  else l

/-- `func (l *Logger) GetLevel() zerolog.Level` (the mutex only guards the
read and is not modelled). -/
def Logger.GetLevel (l : Logger) : Int := l.level

end logger

/-- C4 (amended): on a context without a valid span context, `WithContext`
returns the receiver itself unchanged, so a receiver carrying no trace/span
fields emits lines without them (a receiver that already carries them keeps
them); on a valid span context it returns a new child logger with the
trace id and span id attached under the configured field names, the
receiver itself being unmodified. -/
theorem c4_withContext (l : logger.Logger) (ctx : Option logger.SpanContext) :
    (¬ (logger.spanContextFromContext ctx).isValid = true →
      l.WithContext ctx = l) ∧
    (¬ (logger.spanContextFromContext ctx).isValid = true →
      (∀ kv ∈ l.fields, kv.1 ≠ l.traceIDKey ∧ kv.1 ≠ l.spanIDKey) →
      ∀ kv ∈ (l.WithContext ctx).fields,
        kv.1 ≠ (l.WithContext ctx).traceIDKey ∧
        kv.1 ≠ (l.WithContext ctx).spanIDKey) ∧
    ((logger.spanContextFromContext ctx).isValid = true →
      l.WithContext ctx =
        { l with fields := l.fields ++
            [(l.traceIDKey, (logger.spanContextFromContext ctx).traceID),
             (l.spanIDKey, (logger.spanContextFromContext ctx).spanID)] }) := by
  refine ⟨?_, ?_, ?_⟩
  · intro h
    simp only [logger.Logger.WithContext]
    rw [if_neg h]
  · intro h hl
    have he : l.WithContext ctx = l := by
      simp only [logger.Logger.WithContext]
      rw [if_neg h]
    rw [he]
    exact hl
  · intro h
    have ht : (logger.spanContextFromContext ctx).hasTraceID = true :=
      (Bool.and_eq_true _ _).mp (by simpa [logger.SpanContext.isValid] using h) |>.1
    have hs : (logger.spanContextFromContext ctx).hasSpanID = true :=
      (Bool.and_eq_true _ _).mp (by simpa [logger.SpanContext.isValid] using h) |>.2
    simp only [logger.Logger.WithContext]
    rw [if_pos h, if_pos ht, if_pos hs]
    simp

/-- Witness for C4: the default logger is unchanged by a context without a
span, and gains exactly the two trace fields from a valid span context. -/
theorem c4_withContext_witness :
    logger.New.WithContext none = logger.New ∧
    logger.New.WithContext (some (logger.SpanContext.mk
        "0af7651916cd43dd8448eb211c80319c" "b7ad6b7169203331")) =
      { logger.New with fields := logger.New.fields ++
          [("trace_id", "0af7651916cd43dd8448eb211c80319c"),
           ("span_id", "b7ad6b7169203331")] } := by
  constructor
  · exact (c4_withContext logger.New none).1 (by decide)
  · have h := (c4_withContext logger.New (some (logger.SpanContext.mk
      "0af7651916cd43dd8448eb211c80319c" "b7ad6b7169203331"))).2.2 (by decide)
    rw [h]
    decide

/-- Counterexample to C4 as stated: for a logger that itself came out of
`WithContext` on a valid span, a second `WithContext` on a span-less
context does return the receiver unchanged, but lines emitted through it
still carry the trace/span fields — the claim's "contain no trace/span
fields" fails for that receiver. -/
theorem c4_counterexample :
    (logger.spanContextFromContext none).isValid = false ∧
    (logger.New.WithContext (some (logger.SpanContext.mk
        "0af7651916cd43dd8448eb211c80319c" "b7ad6b7169203331"))).WithContext
          none =
      logger.New.WithContext (some (logger.SpanContext.mk
        "0af7651916cd43dd8448eb211c80319c" "b7ad6b7169203331")) ∧
    ((logger.New.WithContext (some (logger.SpanContext.mk
        "0af7651916cd43dd8448eb211c80319c" "b7ad6b7169203331"))).WithContext
          none).fields.any (fun kv => kv.1 == "trace_id") = true := by
  refine ⟨by decide, by decide, by decide⟩

/-- C9: since the debug level is the zero value of `zerolog.Level`, the
defaulting check in `NewWithConfig` fires on `cfg.Level == 0`, so a config
requesting the debug level yields an info-level logger (both in the stored
level and through `GetLevel`), exactly as if the level had been left
unset; no config at all can construct a debug-level logger, while each of
trace, info, warn, error, fatal and panic is expressible. -/
theorem c9_debug_level_not_constructible (cfg : logger.Config)
    (h : cfg.level = logger.zerologDebugLevel) :
    (logger.NewWithConfig cfg).level = logger.zerologInfoLevel ∧
    (logger.NewWithConfig cfg).GetLevel = logger.zerologInfoLevel ∧
    logger.NewWithConfig cfg =
      logger.NewWithConfig (logger.Config.mk 0 cfg.serviceName
        cfg.environment cfg.traceIDFieldName cfg.spanIDFieldName) ∧
    (∀ cfg2 : logger.Config,
      (logger.NewWithConfig cfg2).level ≠ logger.zerologDebugLevel) ∧
    (∀ lv : Int, lv ∈ [logger.zerologTraceLevel, logger.zerologInfoLevel,
        logger.zerologWarnLevel, logger.zerologErrorLevel,
        logger.zerologFatalLevel, logger.zerologPanicLevel] →
      ∃ cfg3 : logger.Config, (logger.NewWithConfig cfg3).level = lv) := by
  have hz : cfg.level = 0 := h
  refine ⟨?_, ?_, ?_, ?_, ?_⟩
  · simp [logger.NewWithConfig, hz, logger.zerologInfoLevel]
  · simp [logger.NewWithConfig, logger.Logger.GetLevel, hz,
      logger.zerologInfoLevel]
  · simp [logger.NewWithConfig, hz]
  · intro cfg2
    by_cases h2 : cfg2.level = 0
    · simp [logger.NewWithConfig, h2, logger.zerologInfoLevel,
        logger.zerologDebugLevel]
    · simp [logger.NewWithConfig, h2, logger.zerologDebugLevel]
  · intro lv hlv
    refine ⟨logger.Config.mk lv "" "" "" "", ?_⟩
    have hne : lv ≠ 0 := by
      simp only [List.mem_cons, List.mem_singleton] at hlv
      rcases hlv with rfl | rfl | rfl | rfl | rfl | rfl | h0 <;>
        first
          | decide
          | simp at h0
    simp [logger.NewWithConfig, hne]

/-- Witness for C9 at a config explicitly requesting the debug level. -/
theorem c9_debug_level_not_constructible_witness :
    (logger.NewWithConfig (logger.Config.mk 0 "svc" "prod" "" "")).level =
      logger.zerologInfoLevel ∧
    (logger.NewWithConfig (logger.Config.mk 0 "svc" "prod" "" "")).GetLevel =
      logger.zerologInfoLevel :=
  ⟨(c9_debug_level_not_constructible (logger.Config.mk 0 "svc" "prod" "" "")
      (by decide)).1,
   (c9_debug_level_not_constructible (logger.Config.mk 0 "svc" "prod" "" "")
      (by decide)).2.1⟩

/-! ### httpclient package (`httpclient/httpclient.go`) -/

namespace httpclient

/-- The client: base URL and default headers.  The wrapped `http.Client`
(timeout) is part of the transport, abstracted below. -/
structure Client where
  baseURL : String
  headers : List (String × String)

/-- The constructed `http.Request` as far as the claims observe it. -/
structure Request where
  method : String
  url : String
  headers : List (String × String)
  body : Option String
  deriving DecidableEq

/-- The remote response: status code and raw body (as `io.ReadAll` would
deliver it; the discarded read error is outside the model). -/
structure HttpResponse where
  statusCode : Int
  body : String
  deriving DecidableEq

/-- `http.Header.Set`: replace an existing entry for the key or append a
new one.  (Go canonicalizes header keys; the keys used here are already in
canonical form.) -/
def headerSet (hs : List (String × String)) (k v : String) :
    List (String × String) :=
  if hs.any (fun kv => kv.1 == k) then
    hs.map (fun kv => if kv.1 == k then (k, v) else kv)
  else hs ++ [(k, v)]

/-- The `for k, v := range c.Headers` loop of `makeRequest` applied to a
fresh request.  Go map iteration order is unspecified, but `Set` acts per
key, so the resulting header set is order-independent; modelled in list
order. -/
def applyHeaders (defaults : List (String × String)) :
    List (String × String) :=
  defaults.foldl (fun acc kv => headerSet acc kv.1 kv.2) []

/-- Header retrieval by key. -/
def headerLookup (hs : List (String × String)) (k : String) : Option String :=
  (hs.find? (fun kv => kv.1 == k)).map (fun kv => kv.2)

/-- The `body interface` argument of `makeRequest`: a string, a byte
slice (modelled by its contents), nil, or any other value — the latter is
handed to `json.Marshal`, modelled by that marshalling's outcome. -/
inductive ReqBody where
  | str (s : String)
  | bytes (b : String)
  | nilBody
  | obj (marshal : Except String String)

/-- The `switch v := body.(type)` of `makeRequest`: the body reader that
results (`none` when no reader is created); a failed `json.Marshal` aborts
with its error. -/
def bodyReaderOf : ReqBody → Except String (Option String)
  | .str s => .ok (some s)
  | .bytes b => .ok (some b)
  | .nilBody => .ok none
  | .obj (.error e) => .error e
  | .obj (.ok j) => .ok (some j)

/-- The content type after the switch: only the marshalled default branch
replaces an empty content type by `application/json`. -/
def effectiveContentType : ReqBody → String → String
  | .obj _, ct => if ct = "" then "application/json" else ct
  | _, ct => ct

/-- Request construction inside `makeRequest`: URL is base + endpoint, the
default headers are applied, and Content-Type is set only when a body
reader exists and the content type is non-empty.
(`http.NewRequestWithContext` failures on malformed method/URL are outside
the model.) -/
def buildRequest (c : Client) (method endpoint : String) (body : ReqBody)
    (contentType : String) : Except String Request :=
  match bodyReaderOf body with
  | .error e => .error e
  | .ok bodyReader =>
    let ct := effectiveContentType body contentType
    .ok { method := method
          url := c.baseURL ++ endpoint
          headers :=
            if bodyReader.isSome && ct != "" then
              headerSet (applyHeaders c.headers) "Content-Type" ct
            else applyHeaders c.headers
          body := bodyReader }

/-- `func (c *Client) makeRequest(...) (*http.Response, error)`: build the
request, send it through the transport (`c.HTTPClient.Do`), and turn any
response with status ≥ 400 into an error carrying the raw response body,
returning no response in that case. -/
def makeRequest (c : Client)
    (transport : Request → Except String HttpResponse)
    (method endpoint : String) (body : ReqBody) (contentType : String) :
    Except String HttpResponse :=
  match buildRequest c method endpoint body contentType with
  | .error e => .error e
  | .ok req =>
    match transport req with
    | .error e => .error e
    | .ok resp =>
      if resp.statusCode ≥ 400 then .error resp.body else .ok resp

/-- `func (c *Client) Get(...)`. -/
def Client.Get (c : Client)
    (transport : Request → Except String HttpResponse)
    (endpoint : String) (body : ReqBody) : Except String HttpResponse :=
  makeRequest c transport "GET" endpoint body "application/json"

/-- `func (c *Client) Post(...)`. -/
def Client.Post (c : Client)
    (transport : Request → Except String HttpResponse)
    (endpoint : String) (body : ReqBody) : Except String HttpResponse :=
  makeRequest c transport "POST" endpoint body "application/json"

/-- `func (c *Client) PostRaw(...)`: the raw string body with an explicit
content type. -/
def Client.PostRaw (c : Client)
    (transport : Request → Except String HttpResponse)
    (endpoint rawBody contentType : String) : Except String HttpResponse :=
  makeRequest c transport "POST" endpoint (.str rawBody) contentType

/-- `func (c *Client) Put(...)`. -/
def Client.Put (c : Client)
    (transport : Request → Except String HttpResponse)
    (endpoint : String) (body : ReqBody) : Except String HttpResponse :=
  makeRequest c transport "PUT" endpoint body "application/json"

/-- `func (c *Client) PutRaw(...)`. -/
def Client.PutRaw (c : Client)
    (transport : Request → Except String HttpResponse)
    (endpoint rawBody contentType : String) : Except String HttpResponse :=
  makeRequest c transport "PUT" endpoint (.str rawBody) contentType

/-- `func (c *Client) Delete(...)`. -/
def Client.Delete (c : Client)
    (transport : Request → Except String HttpResponse)
    (endpoint : String) (body : ReqBody) : Except String HttpResponse :=
  makeRequest c transport "DELETE" endpoint body "application/json"

end httpclient

/-- C5: whenever the transport delivers a response with status ≥ 400,
`makeRequest` — and with it each verb method, every one of which is a
direct `makeRequest` call — returns no response, only an error whose
message is exactly the raw response body. -/
theorem c5_error_status (c : httpclient.Client)
    (transport : httpclient.Request → Except String httpclient.HttpResponse)
    (method endpoint : String) (body : httpclient.ReqBody) (ct : String)
    (req : httpclient.Request) (resp : httpclient.HttpResponse)
    (hreq : httpclient.buildRequest c method endpoint body ct = .ok req)
    (htr : transport req = .ok resp)
    (hcode : 400 ≤ resp.statusCode) :
    httpclient.makeRequest c transport method endpoint body ct =
      .error resp.body ∧
    (∀ c2 t2 e2 b2, httpclient.Client.Get c2 t2 e2 b2 =
      httpclient.makeRequest c2 t2 "GET" e2 b2 "application/json") ∧
    (∀ c2 t2 e2 b2, httpclient.Client.Post c2 t2 e2 b2 =
      httpclient.makeRequest c2 t2 "POST" e2 b2 "application/json") ∧
    (∀ c2 t2 e2 rb2 ct2, httpclient.Client.PostRaw c2 t2 e2 rb2 ct2 =
      httpclient.makeRequest c2 t2 "POST" e2 (.str rb2) ct2) ∧
    (∀ c2 t2 e2 b2, httpclient.Client.Put c2 t2 e2 b2 =
      httpclient.makeRequest c2 t2 "PUT" e2 b2 "application/json") ∧
    (∀ c2 t2 e2 rb2 ct2, httpclient.Client.PutRaw c2 t2 e2 rb2 ct2 =
      httpclient.makeRequest c2 t2 "PUT" e2 (.str rb2) ct2) ∧
    (∀ c2 t2 e2 b2, httpclient.Client.Delete c2 t2 e2 b2 =
      httpclient.makeRequest c2 t2 "DELETE" e2 b2 "application/json") := by
  refine ⟨?_, fun _ _ _ _ => rfl, fun _ _ _ _ => rfl, fun _ _ _ _ _ => rfl,
    fun _ _ _ _ => rfl, fun _ _ _ _ _ => rfl, fun _ _ _ _ => rfl⟩
  simp only [httpclient.makeRequest, hreq, htr]
  rw [if_pos hcode]

/-- Witness for C5: a transport answering 404 with body `not found`. -/
theorem c5_error_status_witness :
    httpclient.makeRequest (httpclient.Client.mk "http://api" [])
      (fun _ => .ok (httpclient.HttpResponse.mk 404 "not found"))
      "GET" "/x" .nilBody "application/json" = .error "not found" :=
  (c5_error_status (httpclient.Client.mk "http://api" [])
    (fun _ => .ok (httpclient.HttpResponse.mk 404 "not found"))
    "GET" "/x" .nilBody "application/json"
    (httpclient.Request.mk "GET" "http://api/x" [] none)
    (httpclient.HttpResponse.mk 404 "not found")
    rfl rfl (by decide)).1

/-- C10: a nil body produces a request with no body and exactly the
applied default headers — no Content-Type is added even though the
plain verb methods pass `application/json` as content type, because the
header is only set when a body reader exists; in particular the request
carries no Content-Type whenever the defaults do not. -/
theorem c10_nil_body_no_content_type (c : httpclient.Client)
    (method endpoint ct : String) :
    httpclient.buildRequest c method endpoint .nilBody ct =
      .ok (httpclient.Request.mk method (c.baseURL ++ endpoint)
        (httpclient.applyHeaders c.headers) none) ∧
    (httpclient.headerLookup (httpclient.applyHeaders c.headers)
        "Content-Type" = none →
      ∀ req, httpclient.buildRequest c method endpoint .nilBody ct = .ok req →
        httpclient.headerLookup req.headers "Content-Type" = none) ∧
    (∀ t2 e2 b2, httpclient.Client.Get c t2 e2 b2 =
      httpclient.makeRequest c t2 "GET" e2 b2 "application/json") ∧
    (∀ t2 e2 b2, httpclient.Client.Post c t2 e2 b2 =
      httpclient.makeRequest c t2 "POST" e2 b2 "application/json") ∧
    (∀ t2 e2 b2, httpclient.Client.Put c t2 e2 b2 =
      httpclient.makeRequest c t2 "PUT" e2 b2 "application/json") ∧
    (∀ t2 e2 b2, httpclient.Client.Delete c t2 e2 b2 =
      httpclient.makeRequest c t2 "DELETE" e2 b2 "application/json") := by
  have hbuild : httpclient.buildRequest c method endpoint .nilBody ct =
      .ok (httpclient.Request.mk method (c.baseURL ++ endpoint)
        (httpclient.applyHeaders c.headers) none) := by
    simp [httpclient.buildRequest, httpclient.bodyReaderOf,
      httpclient.effectiveContentType]
  refine ⟨hbuild, ?_, fun _ _ _ => rfl, fun _ _ _ => rfl,
    fun _ _ _ => rfl, fun _ _ _ => rfl⟩
  intro h req hreq
  rw [hbuild] at hreq
  cases hreq
  exact h

/-- Witness for C10: a client with one default header; the nil-body GET
request keeps that header, has no body and no Content-Type. -/
theorem c10_nil_body_no_content_type_witness :
    httpclient.buildRequest (httpclient.Client.mk "http://api" [("X-Token", "abc")])
      "GET" "/u" .nilBody "application/json" =
      .ok (httpclient.Request.mk "GET" "http://api/u" [("X-Token", "abc")] none) ∧
    httpclient.headerLookup [("X-Token", "abc")] "Content-Type" = none :=
  ⟨(c10_nil_body_no_content_type
      (httpclient.Client.mk "http://api" [("X-Token", "abc")]) "GET" "/u"
      "application/json").1,
   (c10_nil_body_no_content_type
      (httpclient.Client.mk "http://api" [("X-Token", "abc")]) "GET" "/u"
      "application/json").2.1 rfl
     (httpclient.Request.mk "GET" "http://api/u" [("X-Token", "abc")] none)
     (c10_nil_body_no_content_type
       (httpclient.Client.mk "http://api" [("X-Token", "abc")]) "GET" "/u"
       "application/json").1⟩
